import Mathlib

/-!
Verification of `chrome-extension/icons/generate-icons.py`, a fixed four-job
SVG-to-PNG batch converter.

The script is embedded shallowly:

* the file system is a map `Fs` from path strings to optional file contents
  (contents of both SVG sources and PNG outputs are modelled as strings of
  bytes);
* the external rasterizer `cairosvg.svg2png` is an environment-supplied
  deterministic function `render : String → Nat → Nat → Except String String`
  (either an error description, as raised by the library, or the produced
  PNG bytes);
* process state (`PState`) carries the current working directory (mutated by
  `os.chdir`), the file system, the ordered console output, a ghost trace of
  the `(output_width, output_height)` arguments of every rasterizer
  invocation, and a ghost trace of per-job outcomes
  (skipped / failed / success);
* Python exceptions of the conversion routine are modelled by the `Except`
  result of `render` and the `Option` result of a file read, both handled
  exactly where the script's `try`/`except` handles them.
-/

namespace IconGen

/-- A file system: maps absolute path strings to file contents (byte strings),
`none` when no such file exists. -/
abbrev Fs := String → Option String

/-- Point update of a file system (the effect of writing file `p`). -/
def Fs.update (fs : Fs) (p : String) (v : Option String) : Fs :=
  fun q => if q = p then v else fs q

/-- The environment: the external vector-to-raster capability
(`cairosvg.svg2png`), consumed as a deterministic function from the SVG text
and the requested output width and height to either an error description or
the produced PNG bytes. -/
structure Env where
  render : String → Nat → Nat → Except String String

/-- One conversion job: `(svg_file, png_file, size)` triple, as in the
script's `icons` list (lines 43–48). -/
structure Job where
  svg_file : String
  png_file : String
  size : Nat
deriving DecidableEq

/-- Ghost classification of how one job ended. -/
inductive Outcome
  | skipped
  | failed
  | success
deriving DecidableEq, BEq

/-- Process state: current working directory (`os.chdir` target), file
system, console output lines so far, plus ghost traces of rasterizer
invocations and job outcomes. -/
structure PState where
  cwd : String
  fs : Fs
  out : List String
  renderCalls : List (Nat × Nat)
  outcomes : List Outcome

/-- Resolution of a relative file name against the current working
directory, as performed by `open`, `os.path.exists` and the write-out of
`svg2png`. -/
def resolve (cwd name : String) : String := cwd ++ "/" ++ name

/-- Line printed by `generate_icon` on success (line 29). -/
def createdMsg (output_file : String) (size : Nat) : String :=
  "   ✅ Created: " ++ output_file ++ " (" ++ toString size ++ "x" ++
    toString size ++ ")"

/-- Line printed by `generate_icon` on failure (line 32): it names the
destination path and the description of the caught exception. -/
def failedMsg (output_file : String) (err : String) : String :=
  "   ❌ Failed: " ++ output_file ++ " - " ++ err

/-- Warning printed by `main` for a missing source file (line 55). -/
def warnMsg (svg_file : String) : String :=
  "   ⚠️  SVG not found: " ++ svg_file

/-- Progress line printed by `main` before converting a job (line 58). -/
def generatingMsg (png_file : String) : String :=
  "📦 Generating " ++ png_file ++ "..."

/-- Function `generate_icon(svg_file, output_file, size)` (lines 17–33): read the SVG
source, call the rasterizer with `output_width = output_height = size`,
write the result to `output_file`; any exception is caught and turned into a
failure message and a `False` return. -/
def generate_icon (env : Env) (s : PState) (svg_file output_file : String)
    (size : Nat) : PState × Bool :=
  match s.fs (resolve s.cwd svg_file) with
  | none =>
      ({ s with
          out := s.out ++
            [failedMsg output_file
              ("No such file or directory: " ++ svg_file)] }, false)
  | some svg_data =>
      let s1 : PState :=
        { s with renderCalls := s.renderCalls ++ [(size, size)] }
      match env.render svg_data size size with
      | Except.error e =>
          ({ s1 with out := s1.out ++ [failedMsg output_file e] }, false)
      | Except.ok png =>
          ({ s1 with
              fs := Fs.update s1.fs (resolve s1.cwd output_file) (some png),
              out := s1.out ++ [createdMsg output_file size] }, true)

/-- One iteration of `main`'s batch loop (lines 53–61): skip with a warning
when the source does not exist, otherwise announce the job, run
`generate_icon`, and bump the success counter when it returns `True`. -/
def runJob (env : Env) (s : PState) (count : Nat) (j : Job) : PState × Nat :=
  match s.fs (resolve s.cwd j.svg_file) with
  | none =>
      ({ s with
          out := s.out ++ [warnMsg j.svg_file],
          outcomes := s.outcomes ++ [Outcome.skipped] }, count)
  | some _ =>
      let s1 : PState := { s with out := s.out ++ [generatingMsg j.png_file] }
      let r := generate_icon env s1 j.svg_file j.png_file j.size
      if r.2 then
        ({ r.1 with outcomes := r.1.outcomes ++ [Outcome.success] },
          count + 1)
      else
        ({ r.1 with outcomes := r.1.outcomes ++ [Outcome.failed] }, count)

/-- The batch loop: sequential left-to-right processing of the job list. -/
def runJobs (env : Env) (jobs : List Job) (s : PState) (count : Nat) :
    PState × Nat :=
  match jobs with
  | [] => (s, count)
  | j :: rest =>
      let r := runJob env s count j
      runJobs env rest r.1 r.2

/-- The fixed job list (lines 43–48). -/
def icons : List Job :=
  [⟨"icon-16.svg", "icon16.png", 16⟩,
   ⟨"icon-32.svg", "icon32.png", 32⟩,
   ⟨"icon-48.svg", "icon48.png", 48⟩,
   ⟨"icon-master.svg", "icon128.png", 128⟩]

/-- The `"=" * 50` banner line (line 37). -/
def eqLine : String := String.mk (List.replicate 50 (Char.ofNat 61))

/-- The header printed before anything else (lines 36–38). -/
def headerLines : List String :=
  ["🎨 LendingPad PDF Auditor - Icon Generator", eqLine, ""]

/-- Message of the all-succeeded branch of the summary (line 64). -/
def allOkMsg : String := "✅ All icons generated successfully!"

/-- The summary line (lines 63–66): "all succeeded" exactly when the counter
equals the job-list length, otherwise the partial count out of the total. -/
def summaryMsg (count total : Nat) : String :=
  if count = total then allOkMsg
  else
    "⚠️  Generated " ++ toString count ++ " out of " ++ toString total ++
      " icons"

/-- Digit grouping of Python's `f"{size:,}"` format: commas every three
digits (input is the reversed digit list). -/
def commasAux : List Char → Nat → List Char
  | [], _ => []
  | c :: cs, i =>
      if i ≠ 0 ∧ i % 3 = 0 then
        Char.ofNat 44 :: c :: commasAux cs (i + 1)
      else c :: commasAux cs (i + 1)

/-- Renders a natural number with thousands separators, as `f"{n:,}"`. -/
def withCommas (n : Nat) : String :=
  String.mk ((commasAux (toString n).data.reverse 0).reverse)

/-- The final listing (lines 69–74): the byte size of each destination file
that exists after processing. -/
def fileListing (s : PState) : List String :=
  icons.filterMap (fun j =>
    match s.fs (resolve s.cwd j.png_file) with
    | none => none
    | some data =>
        some ("   " ++ j.png_file ++ ": " ++ withCommas data.length ++
          " bytes"))

/-- Function `main()` (lines 35–74): print the header, `os.chdir` to the script's own
directory, process the four jobs sequentially, print the summary and the
listing. Returns the final state and the success counter. -/
def main (env : Env) (scriptDir initCwd : String) (fs0 : Fs) :
    PState × Nat :=
  let s0 : PState :=
    { cwd := initCwd, fs := fs0, out := headerLines, renderCalls := [],
      outcomes := [] }
  let s1 : PState := { s0 with cwd := scriptDir }
  let s2 : PState :=
    { s1 with out := s1.out ++ ["Converting SVG icons to PNG...", ""] }
  let r := runJobs env icons s2 0
  let s3 : PState :=
    { r.1 with out := r.1.out ++ ["", summaryMsg r.2 icons.length] }
  let s4 : PState :=
    { s3 with out := s3.out ++ ["", "Generated files:"] ++ fileListing s3 }
  (s4, r.2)

/-- One observable operation of the import block (lines 10–15). -/
inductive StartupAction
  | printLine (msg : String)
  | installDependency (cmd : String)
deriving DecidableEq

/-- The import block (lines 10–15): `try: import cairosvg` and, on
`ImportError`, print a notice and run `pip3 install cairosvg` via
`os.system`, then retry the import. The argument says whether the library
was importable; the result is the list of environment operations
performed. -/
def importBlock (cairosvgAvailable : Bool) : List StartupAction :=
  if cairosvgAvailable then []
  else
    [StartupAction.printLine "❌ cairosvg not found. Installing...",
     StartupAction.installDependency "pip3 install cairosvg"]

/-- Recognizes an environment-mutating (installation) startup action. -/
def isInstallAction : StartupAction → Bool
  | StartupAction.installDependency _ => true
  | _ => false

/-- Count of outcomes that are neither `skipped` nor `failed`. -/
def countSuccess (t : List Outcome) : Nat :=
  t.countP (fun o => decide (o ≠ Outcome.skipped ∧ o ≠ Outcome.failed))

/-- Test fixture: an empty file system. -/
def fsEmpty : Fs := fun _ => none

/-- Test fixture: a file system where every path holds a tiny SVG text. -/
def fsAll : Fs := fun _ => some "<svg/>"

/-- Test fixture: a rasterizer that rejects every input. -/
def envErr : Env := ⟨fun _ _ _ => Except.error "invalid svg"⟩

/-- Test fixture: a rasterizer that always produces the same PNG bytes. -/
def envOk : Env := ⟨fun _ _ _ => Except.ok "PNGBYTES"⟩

/-- Test fixture: a fresh process state over the given file system. -/
def sInit (fs : Fs) : PState :=
  { cwd := "dir", fs := fs, out := [], renderCalls := [], outcomes := [] }

/-- The state in which `main` enters the batch loop: header and progress
lines printed, working directory moved to the script's own directory
(line 41), nothing converted yet. -/
def loopStart (scriptDir : String) (fs0 : Fs) : PState :=
  { cwd := scriptDir, fs := fs0,
    out := headerLines ++ ["Converting SVG icons to PNG...", ""],
    renderCalls := [], outcomes := [] }

/-! ### Basic equations for the conversion routine and the loop body -/

theorem generate_icon_none (env : Env) (s : PState) (a b : String) (n : Nat)
    (hd : s.fs (resolve s.cwd a) = none) :
    generate_icon env s a b n =
      ({ s with
          out := s.out ++
            [failedMsg b ("No such file or directory: " ++ a)] }, false) := by
  unfold generate_icon
  rw [hd]

theorem generate_icon_err (env : Env) (s : PState) (a b : String) (n : Nat)
    (d e : String) (hd : s.fs (resolve s.cwd a) = some d)
    (he : env.render d n n = Except.error e) :
    generate_icon env s a b n =
      ({ s with
          out := s.out ++ [failedMsg b e],
          renderCalls := s.renderCalls ++ [(n, n)] }, false) := by
  unfold generate_icon
  rw [hd]
  simp only []
  rw [he]

theorem generate_icon_ok (env : Env) (s : PState) (a b : String) (n : Nat)
    (d png : String) (hd : s.fs (resolve s.cwd a) = some d)
    (he : env.render d n n = Except.ok png) :
    generate_icon env s a b n =
      ({ s with
          fs := Fs.update s.fs (resolve s.cwd b) (some png),
          out := s.out ++ [createdMsg b n],
          renderCalls := s.renderCalls ++ [(n, n)] }, true) := by
  unfold generate_icon
  rw [hd]
  simp only []
  rw [he]

theorem runJob_skip (env : Env) (s : PState) (count : Nat) (j : Job)
    (hd : s.fs (resolve s.cwd j.svg_file) = none) :
    runJob env s count j =
      ({ s with
          out := s.out ++ [warnMsg j.svg_file],
          outcomes := s.outcomes ++ [Outcome.skipped] }, count) := by
  unfold runJob
  rw [hd]

theorem runJob_err (env : Env) (s : PState) (count : Nat) (j : Job)
    (d e : String) (hd : s.fs (resolve s.cwd j.svg_file) = some d)
    (he : env.render d j.size j.size = Except.error e) :
    runJob env s count j =
      ({ s with
          out := s.out ++ [generatingMsg j.png_file, failedMsg j.png_file e],
          renderCalls := s.renderCalls ++ [(j.size, j.size)],
          outcomes := s.outcomes ++ [Outcome.failed] }, count) := by
  unfold runJob
  rw [hd]
  simp only []
  rw [generate_icon_err env { s with out := s.out ++ [generatingMsg j.png_file] }
    j.svg_file j.png_file j.size d e hd he]
  simp [List.append_assoc]

theorem runJob_ok (env : Env) (s : PState) (count : Nat) (j : Job)
    (d png : String) (hd : s.fs (resolve s.cwd j.svg_file) = some d)
    (he : env.render d j.size j.size = Except.ok png) :
    runJob env s count j =
      ({ s with
          fs := Fs.update s.fs (resolve s.cwd j.png_file) (some png),
          out := s.out ++ [generatingMsg j.png_file, createdMsg j.png_file j.size],
          renderCalls := s.renderCalls ++ [(j.size, j.size)],
          outcomes := s.outcomes ++ [Outcome.success] }, count + 1) := by
  unfold runJob
  rw [hd]
  simp only []
  rw [generate_icon_ok env { s with out := s.out ++ [generatingMsg j.png_file] }
    j.svg_file j.png_file j.size d png hd he]
  simp [List.append_assoc]

/-! ### Structural lemmas about the batch loop -/

theorem runJob_cwd (env : Env) (s : PState) (count : Nat) (j : Job) :
    (runJob env s count j).1.cwd = s.cwd := by
  cases hd : s.fs (resolve s.cwd j.svg_file) with
  | none => rw [runJob_skip env s count j hd]
  | some d =>
    cases he : env.render d j.size j.size with
    | error e => rw [runJob_err env s count j d e hd he]
    | ok png => rw [runJob_ok env s count j d png hd he]

theorem runJobs_cwd (env : Env) :
    ∀ (l : List Job) (s : PState) (count : Nat),
      (runJobs env l s count).1.cwd = s.cwd
  | [], _, _ => rfl
  | j :: rest, s, count => by
      show (runJobs env rest (runJob env s count j).1
        (runJob env s count j).2).1.cwd = s.cwd
      rw [runJobs_cwd env rest _ _, runJob_cwd]

/-- The state reached by one loop iteration does not depend on the running
counter (the counter feeds only into the returned number). -/
theorem runJob_state_count (env : Env) (s : PState) (j : Job)
    (c c' : Nat) : (runJob env s c j).1 = (runJob env s c' j).1 := by
  cases hd : s.fs (resolve s.cwd j.svg_file) with
  | none => rw [runJob_skip env s c j hd, runJob_skip env s c' j hd]
  | some d =>
    cases he : env.render d j.size j.size with
    | error e => rw [runJob_err env s c j d e hd he, runJob_err env s c' j d e hd he]
    | ok png => rw [runJob_ok env s c j d png hd he, runJob_ok env s c' j d png hd he]

/-- A loop iteration writes at most the job's own destination path: every
other path of the file system is untouched. -/
theorem runJob_fs_frame (env : Env) (s : PState) (count : Nat) (j : Job)
    (p : String) (hp : p ≠ resolve s.cwd j.png_file) :
    (runJob env s count j).1.fs p = s.fs p := by
  cases hd : s.fs (resolve s.cwd j.svg_file) with
  | none => rw [runJob_skip env s count j hd]
  | some d =>
    cases he : env.render d j.size j.size with
    | error e => rw [runJob_err env s count j d e hd he]
    | ok png =>
        rw [runJob_ok env s count j d png hd he]
        show Fs.update s.fs (resolve s.cwd j.png_file) (some png) p = s.fs p
        unfold Fs.update
        rw [if_neg hp]

/-- The batch touches only the destination paths of its jobs. -/
theorem runJobs_fs_frame (env : Env) :
    ∀ (l : List Job) (s : PState) (count : Nat) (p : String),
      (∀ j ∈ l, p ≠ resolve s.cwd j.png_file) →
      (runJobs env l s count).1.fs p = s.fs p
  | [], _, _, _, _ => rfl
  | j :: rest, s, count, p, hp => by
      show (runJobs env rest (runJob env s count j).1
        (runJob env s count j).2).1.fs p = s.fs p
      rw [runJobs_fs_frame env rest _ _ p, runJob_fs_frame env s count j p]
      · exact hp j (List.mem_cons_self j rest)
      · intro k hk
        rw [runJob_cwd]
        exact hp k (List.mem_cons_of_mem j hk)

theorem countSuccess_cons (o : Outcome) (t : List Outcome) :
    countSuccess (o :: t) = countSuccess [o] + countSuccess t := by
  unfold countSuccess
  rw [List.countP_cons, List.countP_cons, List.countP_nil]
  omega

/-- Each loop iteration records exactly one outcome and increments the
counter exactly when that outcome is `success`. -/
theorem runJob_outcome (env : Env) (s : PState) (count : Nat) (j : Job) :
    ∃ o : Outcome,
      (runJob env s count j).1.outcomes = s.outcomes ++ [o] ∧
      (runJob env s count j).2 = count + countSuccess [o] := by
  cases hd : s.fs (resolve s.cwd j.svg_file) with
  | none =>
      refine ⟨Outcome.skipped, ?_, ?_⟩ <;>
        (rw [runJob_skip env s count j hd]; try rfl)
  | some d =>
    cases he : env.render d j.size j.size with
    | error e =>
        refine ⟨Outcome.failed, ?_, ?_⟩ <;>
          (rw [runJob_err env s count j d e hd he]; try rfl)
    | ok png =>
        refine ⟨Outcome.success, ?_, ?_⟩ <;>
          (rw [runJob_ok env s count j d png hd he]; try rfl)

/-- Trace characterization of the batch loop: it appends one outcome per
job, and the final counter is the starting counter plus the number of
successful outcomes. -/
theorem runJobs_outcomes (env : Env) :
    ∀ (l : List Job) (s : PState) (count : Nat),
      ∃ t : List Outcome,
        (runJobs env l s count).1.outcomes = s.outcomes ++ t ∧
        t.length = l.length ∧
        (runJobs env l s count).2 = count + countSuccess t
  | [], s, count => ⟨[], by simp [runJobs, countSuccess]⟩
  | j :: rest, s, count => by
      obtain ⟨o, ho1, ho2⟩ := runJob_outcome env s count j
      obtain ⟨t, ht1, ht2, ht3⟩ :=
        runJobs_outcomes env rest (runJob env s count j).1 (runJob env s count j).2
      refine ⟨o :: t, ?_, ?_, ?_⟩
      · show (runJobs env rest (runJob env s count j).1
          (runJob env s count j).2).1.outcomes = s.outcomes ++ (o :: t)
        rw [ht1, ho1]
        simp
      · simp [ht2]
      · show (runJobs env rest (runJob env s count j).1
          (runJob env s count j).2).2 = count + countSuccess (o :: t)
        have hc := countSuccess_cons o t
        rw [ht3, ho2]
        omega

/-- Every rasterizer invocation recorded by the batch loop comes from some
job of the list, with width and height both equal to that job's size. -/
theorem runJobs_renderCalls (env : Env) :
    ∀ (l : List Job) (s : PState) (count : Nat) (x : Nat × Nat),
      x ∈ (runJobs env l s count).1.renderCalls →
      x ∈ s.renderCalls ∨ ∃ j ∈ l, x = (j.size, j.size)
  | [], _, _, _, hx => Or.inl hx
  | j :: rest, s, count, x, hx => by
      have hx' : x ∈ (runJobs env rest (runJob env s count j).1
          (runJob env s count j).2).1.renderCalls := hx
      rcases runJobs_renderCalls env rest _ _ x hx' with h | ⟨k, hk, hxk⟩
      · have hstep : (runJob env s count j).1.renderCalls = s.renderCalls ∨
            (runJob env s count j).1.renderCalls =
              s.renderCalls ++ [(j.size, j.size)] := by
          cases hd : s.fs (resolve s.cwd j.svg_file) with
          | none => rw [runJob_skip env s count j hd]; exact Or.inl rfl
          | some d =>
            cases he : env.render d j.size j.size with
            | error e => rw [runJob_err env s count j d e hd he]; exact Or.inr rfl
            | ok png => rw [runJob_ok env s count j d png hd he]; exact Or.inr rfl
        rcases hstep with h2 | h2
        · rw [h2] at h
          exact Or.inl h
        · rw [h2] at h
          rcases List.mem_append.mp h with h3 | h3
          · exact Or.inl h3
          · refine Or.inr ⟨j, List.mem_cons_self j rest, ?_⟩
            simpa using h3
      · exact Or.inr ⟨k, List.mem_cons_of_mem j hk, hxk⟩

/-! ### String facts and the reduction of `main` to the loop -/

theorem resolve_inj (w a b : String) (h : resolve w a = resolve w b) :
    a = b := by
  have hd := congrArg String.data h
  unfold resolve at hd
  rw [String.data_append, String.data_append] at hd
  exact String.ext (List.append_cancel_left hd)

theorem summary_prefix_ne_allOk (x : String) :
    "⚠️  Generated " ++ x ≠ allOkMsg := by
  intro h
  unfold allOkMsg at h
  have hd := congrArg String.data h
  rw [String.data_append] at hd
  have h0 := congrArg List.head? hd
  simp at h0

/-- The summary line is the all-succeeded message exactly when the counter
equals the total. -/
theorem summaryMsg_all_iff (count total : Nat) :
    summaryMsg count total = allOkMsg ↔ count = total := by
  constructor
  · intro h
    by_contra hne
    rw [summaryMsg, if_neg hne] at h
    simp only [String.append_assoc] at h
    exact summary_prefix_ne_allOk _ h
  · intro h
    rw [summaryMsg, if_pos h]

theorem main_snd (env : Env) (sd c0 : String) (fs0 : Fs) :
    (main env sd c0 fs0).2 = (runJobs env icons (loopStart sd fs0) 0).2 := rfl

theorem main_fs (env : Env) (sd c0 : String) (fs0 : Fs) :
    (main env sd c0 fs0).1.fs =
      (runJobs env icons (loopStart sd fs0) 0).1.fs := rfl

theorem main_cwd_eq (env : Env) (sd c0 : String) (fs0 : Fs) :
    (main env sd c0 fs0).1.cwd =
      (runJobs env icons (loopStart sd fs0) 0).1.cwd := rfl

theorem main_outcomes (env : Env) (sd c0 : String) (fs0 : Fs) :
    (main env sd c0 fs0).1.outcomes =
      (runJobs env icons (loopStart sd fs0) 0).1.outcomes := rfl

theorem main_renderCalls (env : Env) (sd c0 : String) (fs0 : Fs) :
    (main env sd c0 fs0).1.renderCalls =
      (runJobs env icons (loopStart sd fs0) 0).1.renderCalls := rfl

/-- The console output of a run carries the summary line. -/
theorem main_summary_mem (env : Env) (sd c0 : String) (fs0 : Fs) :
    summaryMsg (main env sd c0 fs0).2 icons.length ∈ (main env sd c0 fs0).1.out := by
  simp [main]

/-! ### Claim theorems -/

/-- Claim C1: a job whose source file does not exist is skipped with a
warning and processing simply moves on: the file system is left entirely
unchanged (so no destination file is created or altered by that job), the
success counter is not incremented, and the job is recorded as skipped. -/
theorem C1_missing_source_skipped (env : Env) (s : PState) (count : Nat)
    (j : Job) (h : s.fs (resolve s.cwd j.svg_file) = none) :
    (runJob env s count j).1.fs = s.fs ∧
    (runJob env s count j).2 = count ∧
    (runJob env s count j).1.out = s.out ++ [warnMsg j.svg_file] ∧
    (runJob env s count j).1.outcomes = s.outcomes ++ [Outcome.skipped] := by
  rw [runJob_skip env s count j h]
  exact ⟨rfl, rfl, rfl, rfl⟩

/-- Witness for C1: the empty file system and the first job of the batch. -/
theorem C1_missing_source_skipped_witness :
    (runJob envErr (sInit fsEmpty) 0 (Job.mk "icon-16.svg" "icon16.png" 16)).2
      = 0 :=
  (C1_missing_source_skipped envErr (sInit fsEmpty) 0
    (Job.mk "icon-16.svg" "icon16.png" 16) rfl).2.1

/-- Claim C2: when the rasterizer raises, the failure is caught inside
`generate_icon`, which returns `false` rather than propagating the
exception; the emitted failure line is exactly `failedMsg`, which includes
the destination path and the error's description; the loop records the job
as failed without touching the counter and proceeds to the next job, so the
failure does not abort the batch. -/
theorem C2_conversion_failure_nonfatal (env : Env) (s : PState) (count : Nat)
    (j : Job) (d e : String)
    (hread : s.fs (resolve s.cwd j.svg_file) = some d)
    (hrender : env.render d j.size j.size = Except.error e) :
    (generate_icon env s j.svg_file j.png_file j.size).2 = false ∧
    (generate_icon env s j.svg_file j.png_file j.size).1.out =
      s.out ++ [failedMsg j.png_file e] ∧
    (runJob env s count j).2 = count ∧
    (runJob env s count j).1.outcomes = s.outcomes ++ [Outcome.failed] ∧
    (∀ rest, runJobs env (j :: rest) s count =
      runJobs env rest (runJob env s count j).1 (runJob env s count j).2) := by
  refine ⟨?_, ?_, ?_, ?_, fun rest => rfl⟩
  · rw [generate_icon_err env s j.svg_file j.png_file j.size d e hread hrender]
  · rw [generate_icon_err env s j.svg_file j.png_file j.size d e hread hrender]
  · rw [runJob_err env s count j d e hread hrender]
  · rw [runJob_err env s count j d e hread hrender]

/-- Witness for C2: every source present, rasterizer that rejects its
input. -/
theorem C2_conversion_failure_nonfatal_witness :
    (generate_icon envErr (sInit fsAll) "icon-16.svg" "icon16.png" 16).2
      = false :=
  (C2_conversion_failure_nonfatal envErr (sInit fsAll) 0
    (Job.mk "icon-16.svg" "icon16.png" 16) "<svg/>" "invalid svg"
    rfl rfl).1

/-- Claim C6 counterexample: with the rasterization library unavailable at
startup, the import block does attempt to mutate its execution environment:
it performs a live installation action (`pip3 install cairosvg`), contrary
to the claim that no such attempt is made. -/
theorem C6_counterexample_install_attempted :
    (importBlock false).any isInstallAction = true := rfl

/-- Claim C6 (amended): if the rendering library is unavailable at startup,
the program emits a diagnostic naming the missing dependency and then
attempts a live installation of it before retrying the import; it does not
fail fast, and it does mutate its execution environment. When the library
is available, no startup action is taken. -/
theorem C6_amended_install_not_failfast :
    importBlock true = [] ∧
    importBlock false =
      [StartupAction.printLine "❌ cairosvg not found. Installing...",
       StartupAction.installDependency "pip3 install cairosvg"] :=
  ⟨rfl, rfl⟩

/-- Claim C3: after all jobs are processed the summary line is part of the
output; it is the all-succeeded message exactly when the success counter
equals the total job count, which is 4; otherwise it reports the count
succeeded out of the total. -/
theorem C3_summary_all_iff (env : Env) (sd c0 : String) (fs0 : Fs) :
    icons.length = 4 ∧
    summaryMsg (main env sd c0 fs0).2 icons.length ∈
      (main env sd c0 fs0).1.out ∧
    (summaryMsg (main env sd c0 fs0).2 icons.length = allOkMsg ↔
      (main env sd c0 fs0).2 = 4) ∧
    ∀ n : Nat,
      summaryMsg n icons.length =
        if n = 4 then allOkMsg
        else
          "⚠️  Generated " ++ toString n ++ " out of " ++ toString 4 ++
            " icons" := by
  refine ⟨rfl, main_summary_mem env sd c0 fs0, ?_, fun n => rfl⟩
  exact summaryMsg_all_iff _ _

/-- Claim C4: in every run the final success count equals the number of
jobs whose outcome was neither skipped nor failed; exactly one outcome is
recorded per job (so each job contributes at most one), and the count never
exceeds the total job count 4. -/
theorem C4_count_invariant (env : Env) (sd c0 : String) (fs0 : Fs) :
    (main env sd c0 fs0).2 = countSuccess (main env sd c0 fs0).1.outcomes ∧
    (main env sd c0 fs0).1.outcomes.length = 4 ∧
    (main env sd c0 fs0).2 ≤ 4 := by
  obtain ⟨t, ht1, ht2, ht3⟩ := runJobs_outcomes env icons (loopStart sd fs0) 0
  have hlen : t.length = 4 := ht2
  rw [main_snd, main_outcomes, ht1, ht3]
  have h0 : (loopStart sd fs0).outcomes = [] := rfl
  rw [h0]
  have hle : countSuccess t ≤ t.length := List.countP_le_length _
  refine ⟨by simp, by simpa using hlen, ?_⟩
  omega

/-- Claim C5: the batch consists of exactly the four fixed jobs with target
sizes 16, 32, 48 and 128, and every rasterizer invocation of any run passes
output width equal to output height equal to the target size of one of the
jobs, so each produced output image is requested square at its job's
size. -/
theorem C5_four_square_jobs (env : Env) (sd c0 : String) (fs0 : Fs)
    (x : Nat × Nat) (hx : x ∈ (main env sd c0 fs0).1.renderCalls) :
    icons.map Job.size = [16, 32, 48, 128] ∧
    icons.length = 4 ∧
    x.1 = x.2 ∧ x.1 ∈ [16, 32, 48, 128] := by
  rw [main_renderCalls] at hx
  rcases runJobs_renderCalls env icons (loopStart sd fs0) 0 x hx with
    h | ⟨j, hj, hxj⟩
  · exact absurd h (by simp [loopStart])
  · refine ⟨rfl, rfl, ?_, ?_⟩
    · rw [hxj]
    · rw [hxj]
      fin_cases hj <;> simp

/-- Witness for C5: a run with all sources present and a total rasterizer;
its first recorded invocation is the 16×16 one. -/
theorem C5_four_square_jobs_witness :
    ((16, 16) : Nat × Nat).1 = ((16, 16) : Nat × Nat).2 ∧
    ((16, 16) : Nat × Nat).1 ∈ [16, 32, 48, 128] :=
  (C5_four_square_jobs envOk "dir" "c" fsAll (16, 16) (by decide)).2.2

/-- Claim C7: the run result is identical for any two initial working
directories, because `main` changes the process-wide working directory to
the script's own directory before processing any job; the working directory
remains the script directory through the batch, and every path whose
content a run can change is a destination path resolved against the script
directory. -/
theorem C7_cwd_independent (env : Env) (sd c1 c2 p : String) (fs0 : Fs)
    (hp : ∀ j ∈ icons, p ≠ resolve sd j.png_file) :
    main env sd c1 fs0 = main env sd c2 fs0 ∧
    (main env sd c1 fs0).1.cwd = sd ∧
    (main env sd c1 fs0).1.fs p = fs0 p := by
  refine ⟨rfl, ?_, ?_⟩
  · rw [main_cwd_eq, runJobs_cwd]
    rfl
  · rw [main_fs, runJobs_fs_frame env icons (loopStart sd fs0) 0 p]
    · rfl
    · intro j hj
      exact hp j hj

/-- Witness for C7: a path outside the four destination paths is untouched,
and two runs from different caller directories coincide. -/
theorem C7_cwd_independent_witness :
    main envOk "dir" "a" fsEmpty = main envOk "dir" "b" fsEmpty ∧
    (main envOk "dir" "a" fsEmpty).1.cwd = "dir" ∧
    (main envOk "dir" "a" fsEmpty).1.fs "other" = fsEmpty "other" :=
  C7_cwd_independent envOk "dir" "a" "b" "other" fsEmpty (by decide)

/-- Claim C8: every run processes all four jobs — one recorded outcome per
job, whatever mix of skips and failures occurs — reaches the summary step,
and reports the summary line in its output; the batch is a total function
of its inputs, so no error propagates out of the loop. -/
theorem C8_always_completes (env : Env) (sd c0 : String) (fs0 : Fs) :
    (main env sd c0 fs0).1.outcomes.length = icons.length ∧
    icons.length = 4 ∧
    summaryMsg (main env sd c0 fs0).2 icons.length ∈
      (main env sd c0 fs0).1.out := by
  refine ⟨?_, rfl, main_summary_mem env sd c0 fs0⟩
  obtain ⟨t, ht1, ht2, _⟩ := runJobs_outcomes env icons (loopStart sd fs0) 0
  rw [main_outcomes, ht1]
  simpa [loopStart] using ht2

/-- Claim C10: whether a job runs depends only on its source file, never on
the state of its destination file: replacing the destination file's state
by any value changes neither the recorded outcome, nor the counter, nor the
printed lines; the job is skipped exactly when the source is missing; and
on success the destination holds the freshly rendered bytes regardless of
its previous state — a pre-existing destination is overwritten
unconditionally and never causes a skip. -/
theorem C10_dest_state_irrelevant (env : Env) (s : PState) (count : Nat)
    (j : Job) (v : Option String)
    (hne : resolve s.cwd j.svg_file ≠ resolve s.cwd j.png_file) :
    (runJob env { s with fs := Fs.update s.fs (resolve s.cwd j.png_file) v }
        count j).1.outcomes = (runJob env s count j).1.outcomes ∧
    (runJob env { s with fs := Fs.update s.fs (resolve s.cwd j.png_file) v }
        count j).2 = (runJob env s count j).2 ∧
    (runJob env { s with fs := Fs.update s.fs (resolve s.cwd j.png_file) v }
        count j).1.out = (runJob env s count j).1.out ∧
    ((runJob env s count j).1.outcomes = s.outcomes ++ [Outcome.skipped] ↔
      s.fs (resolve s.cwd j.svg_file) = none) ∧
    (∀ d png, s.fs (resolve s.cwd j.svg_file) = some d →
      env.render d j.size j.size = Except.ok png →
      (runJob env { s with fs := Fs.update s.fs (resolve s.cwd j.png_file) v }
          count j).1.fs (resolve s.cwd j.png_file) = some png ∧
      (runJob env s count j).1.fs (resolve s.cwd j.png_file) = some png) := by
  have hsvg :
      Fs.update s.fs (resolve s.cwd j.png_file) v (resolve s.cwd j.svg_file) =
        s.fs (resolve s.cwd j.svg_file) := by
    unfold Fs.update
    rw [if_neg hne]
  cases hd : s.fs (resolve s.cwd j.svg_file) with
  | none =>
      have hd' :
          ({ s with fs := Fs.update s.fs (resolve s.cwd j.png_file) v } :
              PState).fs (resolve s.cwd j.svg_file) = none := hsvg.trans hd
      rw [runJob_skip env _ count j hd', runJob_skip env s count j hd]
      refine ⟨rfl, rfl, rfl, ⟨fun _ => rfl, fun _ => rfl⟩, ?_⟩
      intro d png hd2 _
      cases hd2
  | some d0 =>
      have hd' :
          ({ s with fs := Fs.update s.fs (resolve s.cwd j.png_file) v } :
              PState).fs (resolve s.cwd j.svg_file) = some d0 := hsvg.trans hd
      cases he : env.render d0 j.size j.size with
      | error e =>
          rw [runJob_err env _ count j d0 e hd' he,
            runJob_err env s count j d0 e hd he]
          refine ⟨rfl, rfl, rfl, ?_, ?_⟩
          · constructor
            · intro hEq
              have := List.append_cancel_left hEq
              simp at this
            · intro hEq
              cases hEq
          · intro d png hd2 he2
            cases hd2
            rw [he] at he2
            cases he2
      | ok png0 =>
          rw [runJob_ok env _ count j d0 png0 hd' he,
            runJob_ok env s count j d0 png0 hd he]
          refine ⟨rfl, rfl, rfl, ?_, ?_⟩
          · constructor
            · intro hEq
              have := List.append_cancel_left hEq
              simp at this
            · intro hEq
              cases hEq
          · intro d png hd2 he2
            cases hd2
            rw [he] at he2
            cases he2
            constructor
            · show Fs.update (Fs.update s.fs (resolve s.cwd j.png_file) v)
                (resolve s.cwd j.png_file) (some png0)
                (resolve s.cwd j.png_file) = some png0
              unfold Fs.update
              rw [if_pos rfl]
            · show Fs.update s.fs (resolve s.cwd j.png_file) (some png0)
                (resolve s.cwd j.png_file) = some png0
              unfold Fs.update
              rw [if_pos rfl]

/-- Witness for C10: all sources present, deterministic rasterizer, a
pre-populated destination for the first job. -/
theorem C10_dest_state_irrelevant_witness :
    (runJob envOk
        { sInit fsAll with
            fs := Fs.update (sInit fsAll).fs
              (resolve (sInit fsAll).cwd
                (Job.mk "icon-16.svg" "icon16.png" 16).png_file)
              (some "OLD") }
        0 (Job.mk "icon-16.svg" "icon16.png" 16)).2 =
      (runJob envOk (sInit fsAll) 0 (Job.mk "icon-16.svg" "icon16.png" 16)).2 :=
  (C10_dest_state_irrelevant envOk (sInit fsAll) 0
    (Job.mk "icon-16.svg" "icon16.png" 16) (some "OLD") (by decide)).2.1

theorem runJobs_cons (env : Env) (j : Job) (rest : List Job) (s : PState)
    (c : Nat) :
    runJobs env (j :: rest) s c =
      runJobs env rest (runJob env s c j).1 (runJob env s c j).2 := rfl

theorem resolve_ne_of_ne (w a b : String) (h : a ≠ b) :
    resolve w a ≠ resolve w b :=
  fun hEq => h (resolve_inj w a b hEq)

/-- Running the batch again from the file system left by a first run makes
the same decisions and writes the same bytes, so the file system does not
change. Requires that no job's source path is any job's destination path,
and that destination paths are pairwise distinct — both hold for the fixed
job list. -/
theorem runJobs_fs_idem (env : Env) (l : List Job) :
    ∀ (s s' : PState) (c c' : Nat),
      s'.cwd = s.cwd →
      s'.fs = (runJobs env l s c).1.fs →
      (∀ j ∈ l, ∀ k ∈ l,
        resolve s.cwd j.svg_file ≠ resolve s.cwd k.png_file) →
      l.Pairwise (fun a b =>
        resolve s.cwd a.png_file ≠ resolve s.cwd b.png_file) →
      (runJobs env l s' c').1.fs = (runJobs env l s c).1.fs := by
  induction l with
  | nil =>
      intro s s' c c' _ hfs _ _
      exact hfs
  | cons j rest ih =>
      intro s s' c c' hcwd hfs hdisj hpair
      obtain ⟨hpair1, hpair2⟩ := List.pairwise_cons.mp hpair
      have hqall :
          (runJobs env (j :: rest) s c).1.fs (resolve s.cwd j.svg_file) =
            s.fs (resolve s.cwd j.svg_file) := by
        apply runJobs_fs_frame
        intro k hk
        exact hdisj j (List.mem_cons_self j rest) k hk
      have hq : s'.fs (resolve s.cwd j.svg_file) =
          s.fs (resolve s.cwd j.svg_file) := by
        rw [hfs]
        exact hqall
      rw [runJobs_cons, runJobs_cons]
      rw [runJobs_cons] at hfs
      have hcwd2 : (runJob env s' c' j).1.cwd = (runJob env s c j).1.cwd := by
        rw [runJob_cwd env s' c' j, runJob_cwd env s c j]
        exact hcwd
      have hdisj2 : ∀ a ∈ rest, ∀ b ∈ rest,
          resolve (runJob env s c j).1.cwd a.svg_file ≠
            resolve (runJob env s c j).1.cwd b.png_file := by
        intro a ha b hb
        rw [runJob_cwd env s c j]
        exact hdisj a (List.mem_cons_of_mem j ha) b (List.mem_cons_of_mem j hb)
      have hpair2' : rest.Pairwise (fun a b =>
          resolve (runJob env s c j).1.cwd a.png_file ≠
            resolve (runJob env s c j).1.cwd b.png_file) := by
        rw [runJob_cwd env s c j]
        exact hpair2
      refine ih (runJob env s c j).1 (runJob env s' c' j).1
        (runJob env s c j).2 (runJob env s' c' j).2 hcwd2 ?_ hdisj2 hpair2'
      cases hd : s.fs (resolve s.cwd j.svg_file) with
      | none =>
          have hd' : s'.fs (resolve s'.cwd j.svg_file) = none := by
            rw [hcwd, hq, hd]
          have h1 : (runJob env s' c' j).1.fs = s'.fs := by
            rw [runJob_skip env s' c' j hd']
          exact h1.trans hfs
      | some d =>
          have hd' : s'.fs (resolve s'.cwd j.svg_file) = some d := by
            rw [hcwd, hq, hd]
          cases he : env.render d j.size j.size with
          | error e =>
              have h1 : (runJob env s' c' j).1.fs = s'.fs := by
                rw [runJob_err env s' c' j d e hd' he]
              exact h1.trans hfs
          | ok png =>
              have hApng :
                  (runJobs env rest (runJob env s c j).1
                      (runJob env s c j).2).1.fs
                    (resolve s.cwd j.png_file) = some png := by
                have hframe := runJobs_fs_frame env rest (runJob env s c j).1
                  (runJob env s c j).2 (resolve s.cwd j.png_file)
                  (fun k hk => by
                    rw [runJob_cwd env s c j]
                    exact hpair1 k hk)
                rw [hframe, runJob_ok env s c j d png hd he]
                show Fs.update s.fs (resolve s.cwd j.png_file) (some png)
                  (resolve s.cwd j.png_file) = some png
                unfold Fs.update
                rw [if_pos rfl]
              have h1 : (runJob env s' c' j).1.fs =
                  Fs.update s'.fs (resolve s'.cwd j.png_file) (some png) := by
                rw [runJob_ok env s' c' j d png hd' he]
              rw [h1]
              funext q
              show (if q = resolve s'.cwd j.png_file then some png else s'.fs q)
                = _
              rw [hcwd]
              by_cases hqP : q = resolve s.cwd j.png_file
              · rw [if_pos hqP, hqP]
                exact hApng.symm
              · rw [if_neg hqP]
                rw [hfs]

/-- Claim C9: running the full batch twice, with unchanged source files and
a deterministic rasterizer, is idempotent — the second run leaves the file
system (in particular every destination file) byte-for-byte identical to
the state after the first run. -/
theorem C9_batch_idempotent (env : Env) (sd c0 c1 : String) (fs0 : Fs) :
    (main env sd c1 (main env sd c0 fs0).1.fs).1.fs =
      (main env sd c0 fs0).1.fs := by
  rw [main_fs, main_fs]
  apply runJobs_fs_idem env icons (loopStart sd fs0)
    (loopStart sd ((runJobs env icons (loopStart sd fs0) 0).1.fs)) 0 0 rfl rfl
  · intro j hj k hk hEq
    have hnames := resolve_inj sd j.svg_file k.png_file hEq
    revert hnames
    fin_cases hj <;> fin_cases hk <;> decide
  · have hnames : icons.Pairwise (fun a b => a.png_file ≠ b.png_file) := by
      decide
    exact hnames.imp (fun h => resolve_ne_of_ne sd _ _ h)

end IconGen
